import Mathlib

/-!
Verification of the `fetch-with-render` rendering core.

The development shallowly embeds:
* the JavaScript render dispatcher of `src/response.mjs`
  (`RenderableResponse.render` and `#renderInChildProcess`),
* the worker process of `render-worker.js`,
* the Rust render state machine `run_webview_blocking` as quoted in the
  architecture document (Phases 3-7), with the wall-clock timeout check
  modelled from the spec (the timeout-check line itself is not in the
  quoted source; the spec states it is measured from session start and
  checked on every tick while a wait condition is unmet).

Machine integers are `Nat`/`Int`; JavaScript truthiness of message fields
is made explicit where the dispatcher relies on it.
-/

deriving instance DecidableEq for Except

namespace FetchWithRender

/-- Render options, mirroring `RenderOptions` of `src/lib.rs` as quoted in
the architecture document (all fields optional): `timeout`, `wait_for`
(`waitFor` in JS), `selector`, `script`. -/
structure RenderOptions where
  timeout : Option Nat := none
  waitFor : Option String := none
  selector : Option String := none
  script : Option String := none
deriving Repr, DecidableEq

/-- The `RenderError` enum of `src/lib.rs` as quoted in the architecture
document: `WindowCreation`, `WebViewCreation`, `Timeout`,
`ScriptExecution`, `Unknown`. -/
inductive RenderError where
  | windowCreation (msg : String)
  | webViewCreation (msg : String)
  | timeout
  | scriptExecution (msg : String)
  | unknown (msg : String)
deriving Repr, DecidableEq

/-! ## Dispatcher (`src/response.mjs`) -/

/-- The three message shapes the worker sends over IPC:
`{ready: true}`, `{success: true, html}`, `{success: false, error}`. -/
inductive WorkerMsg where
  | ready
  | result (html : String)
  | failure (error : String)
deriving Repr, DecidableEq

/-- Events that can reach the dispatcher's promise executor in
`#renderInChildProcess`: an IPC `message`, the child's `error` event, the
child's `exit` event (exit code is `null` when killed by a signal, modelled
as `none`), and the firing of the dispatcher's own kill timer. -/
inductive ChildEvent where
  | message (m : WorkerMsg)
  | errored (err : String)
  | exited (code : Option Int)
  | killTimeoutFired
deriving Repr, DecidableEq

/-- A settlement of the promise returned by `#renderInChildProcess`:
`resolve(html)` or `reject(new Error(msg))`. -/
inductive Settle where
  | resolved (html : String)
  | rejected (msg : String)
deriving Repr, DecidableEq

/-- The mutable state of one `#renderInChildProcess` invocation:
`workerReady`, `resolved`, whether `child.kill()` was called, whether the
render request was sent to the worker, and the list of settlements
performed so far (for a real promise this list must end up a singleton). -/
structure DispatchState where
  workerReady : Bool := false
  resolvedFlag : Bool := false
  killed : Bool := false
  requestSent : Bool := false
  settles : List Settle := []
deriving Repr, DecidableEq

/-- The initial dispatcher state, before any IPC event is handled. -/
def initDispatch : DispatchState := {}

/-- `options.timeout || 5000` in `#renderInChildProcess` — JavaScript `||`
falls through on `0` as well as on `undefined`. -/
def jsTimeout (options : RenderOptions) : Nat :=
  match options.timeout with
  | some n => if n = 0 then 5000 else n
  | none => 5000

/-- The fixed grace margin the dispatcher adds beyond the render timeout
before force-killing the worker: `timeout + 2000` in `src/response.mjs`. -/
def graceMs : Nat := 2000

/-- The delay of the dispatcher's `killTimeout` timer:
`setTimeout(..., timeout + 2000)`. -/
def killDelay (options : RenderOptions) : Nat := jsTimeout options + graceMs

/-- The rejection message of the dispatcher's kill-timer path:
`` `Render timeout after ${timeout}ms` ``. -/
def renderTimeoutMsg (t : Nat) : String :=
  "Render timeout after " ++ toString t ++ "ms"

/-- Textual form of a child exit code as interpolated by JavaScript:
`null` prints as `"null"`. -/
def codeText : Option Int → String
  | none => "null"
  | some n => toString n

/-- The rejection message of the `exit` handler for a non-zero (or `null`)
exit code: `` `Worker process exited with code ${code}` ``. -/
def workerExitCodeMsg (code : Option Int) : String :=
  "Worker process exited with code " ++ codeText code

/-- The rejection message of the `exit` handler for exit code `0` with no
result received: `'Worker exited without sending result'`. -/
def workerSilentExitMsg : String := "Worker exited without sending result"

/-- One step of the dispatcher's event handling, mirroring the handlers
installed in `#renderInChildProcess` (`t` is the effective render timeout,
used only by the kill-timer message).  Branch order and guards follow the
source: the `message` handler checks `ready`, then `success`, then
`error` (a failure message with an empty `error` string is falsy in
JavaScript and settles nothing); every settling branch is guarded by
`if (!resolved)`; the kill-timer branch additionally calls
`child.kill()`. -/
def dispatchStep (t : Nat) (s : DispatchState) (e : ChildEvent) : DispatchState :=
  match e with
  | .message .ready =>
      { s with workerReady := true, requestSent := true }
  | .message (.result html) =>
      if s.resolvedFlag then s
      else { s with resolvedFlag := true, settles := s.settles ++ [.resolved html] }
  | .message (.failure err) =>
      if err = "" then s
      else if s.resolvedFlag then s
      else { s with resolvedFlag := true, settles := s.settles ++ [.rejected err] }
  | .errored err =>
      if s.resolvedFlag then s
      else { s with resolvedFlag := true, settles := s.settles ++ [.rejected err] }
  | .exited code =>
      if s.resolvedFlag then s
      else
        { s with resolvedFlag := true,
                 settles := s.settles ++
                   [.rejected (if code = some 0 then workerSilentExitMsg
                               else workerExitCodeMsg code)] }
  | .killTimeoutFired =>
      if s.resolvedFlag then s
      else { s with resolvedFlag := true, killed := true,
                    settles := s.settles ++ [.rejected (renderTimeoutMsg t)] }

/-- Run the dispatcher over a sequence of child events. -/
def dispatchRun (t : Nat) (es : List ChildEvent) : DispatchState :=
  es.foldl (dispatchStep t) initDispatch

/-! ## Render path selection (`renderCount` in `src/response.mjs`) -/

/-- Which execution path a `render()` call takes. -/
inductive RenderPath where
  | direct
  | worker
deriving Repr, DecidableEq

/-- One `render()` call as a transition on the module-level `renderCount`
(shared by every `RenderableResponse` instance in the process):
`renderCount++` followed by `if (renderCount === 1)` choosing the direct
native call, else the child-process path. -/
def renderStep (renderCount : Nat) : Nat × RenderPath :=
  let c := renderCount + 1
  (c, if c = 1 then .direct else .worker)

/-- The value of `renderCount` after `n` calls in one process lifetime. -/
def renderCountAfter : Nat → Nat
  | 0 => 0
  | n + 1 => (renderStep (renderCountAfter n)).1

/-- The path taken by call number `n` (0-based) within one process
lifetime. -/
def pathOfCall (n : Nat) : RenderPath := (renderStep (renderCountAfter n)).2

/-! ## Worker process (`render-worker.js`) -/

/-- The request the dispatcher sends to the worker once it is ready:
`{url, options}`; `options` may be absent (the worker applies
`options || {}`). -/
structure WorkerRequest where
  url : String
  options : Option RenderOptions
deriving Repr, DecidableEq

/-- The messages the worker sends at startup: module-level code installs
the handlers and then immediately runs `process.send({ ready: true })`. -/
def workerStartupMsgs : List WorkerMsg := [.ready]

/-- The worker's `process.on('message')` handler: run `renderPage` on the
request (with `options || {}`), then either send `{success: true, html}`
and `process.exit(0)`, or — in the `catch` — send
`{success: false, error}` and `process.exit(1)`.  `renderPage` is the
native render, abstracted as a parameter; the value returned is the
ordered list of messages sent followed by the exit code. -/
def handleRequest (renderPage : String → RenderOptions → Except String String)
    (req : WorkerRequest) : List WorkerMsg × Nat :=
  match renderPage req.url (req.options.getD {}) with
  | .ok html => ([.result html], 0)
  | .error err => ([.failure err], 1)

/-- The worker's `process.on('uncaughtException')` handler: send
`{success: false, error: "Uncaught exception: ..."}` and
`process.exit(1)`. -/
def handleUncaught (err : String) : List WorkerMsg × Nat :=
  ([.failure ("Uncaught exception: " ++ err)], 1)

/-! ## Result cleanup (Phase 7 of `run_webview_blocking`)

`result.trim_matches('"').replace("\\n", "\n").replace("\\\"", "\"")` in
the quoted Rust source.  `trim_matches` removes every leading and every
trailing matching character; `replace` rewrites all non-overlapping
occurrences left to right. -/

/-- Rust `str::trim_matches('"')` on the character list of the string:
drop every leading and every trailing `'"'`. -/
def trimQuotes (l : List Char) : List Char :=
  ((l.dropWhile (· = '"')).reverse.dropWhile (· = '"')).reverse

/-- Rust `str::replace` specialised to a two-character pattern `a b`
rewritten to the single character `r`, scanning left to right over
non-overlapping matches (the only patterns the cleanup uses are `\n` and
`\"`, each replaced by one character). -/
def replaceSeq (a b r : Char) : List Char → List Char
  | x :: y :: rest =>
      if x = a ∧ y = b then r :: replaceSeq a b r rest
      else x :: replaceSeq a b r (y :: rest)
  | l => l

/-- The full Phase-7 cleanup applied to the evaluator's serialized result:
`trim_matches('"')`, then `replace("\\n", "\n")`, then
`replace("\\\"", "\"")`. -/
def cleanResult (s : String) : String :=
  ⟨replaceSeq '\\' '"' '"' (replaceSeq '\\' 'n' '\n' (trimQuotes s.data))⟩

/-- Modelled from the spec: the WebView bridge (`evaluate_script`'s result
channel, external to this repository) returns the value of a script as
"JSON-like quoted text" — the string wrapped in double quotes with `"`,
`\` and newline escaped. -/
def serializeJS (s : String) : String :=
  ⟨'"' :: (s.data.flatMap fun c =>
    if c = '"' then ['\\', '"']
    else if c = '\\' then ['\\', '\\']
    else if c = '\n' then ['\\', 'n']
    else [c]) ++ ['"']⟩

/-! ## Render state machine (`run_webview_blocking`, Phases 3-7)

The event-loop body runs once per `MainEventsCleared` tick.  The page and
the WebView evaluator are abstracted as an environment: the readiness flag
reads `"true"` from tick `readyAt` on, selector queries and script
evaluation are functions of the environment.  One tick is one unit of
wall-clock time (milliseconds); the elapsed time at tick `t` is `t`,
measured from session start. -/

/-- The environment one render session observes through
`evaluate_script`. -/
structure PageEnv where
  /-- First tick at which `window.__renderReady` evaluates to `"true"`. -/
  readyAt : Nat
  /-- Whether `!!document.querySelector(sel)` evaluates to `"true"` at a
  given tick. -/
  hasSelector : String → Nat → Bool
  /-- Result of evaluating the custom script: `none` for `Ok`, `some e`
  for `Err(e)`. -/
  scriptError : String → Option String
  /-- Error of the extraction evaluation, if any. -/
  extractError : Option String
  /-- `document.querySelector(sel)`'s first match, as its `outerHTML`. -/
  querySelector : String → Option String
  /-- `document.documentElement.outerHTML`. -/
  documentHTML : String

/-- Outcome of one event-loop tick: keep looping (with the updated
`loaded` flag) or exit the loop with a terminal result. -/
inductive TickResult where
  | again (loaded : Bool)
  | done (r : Except RenderError String)
deriving Repr

/-- The value the extraction script computes: `el ? el.outerHTML : ''`
when `selector` is set, otherwise the whole document's `outerHTML`. -/
def extractTarget (env : PageEnv) (selector : Option String) : String :=
  match selector with
  | some sel =>
      match env.querySelector sel with
      | some el => el
      | none => ""
  | none => env.documentHTML

/-- Phases 6-7 of the tick: evaluate the custom script once if present
(`Err` → terminal `ScriptExecution`), then evaluate the extraction script
(`Err` → terminal `ScriptExecution`, `Ok` → terminal success with the
cleaned-up result).  The second component counts custom-script
evaluations performed by this tick. -/
def phases67 (env : PageEnv) (opts : RenderOptions) : TickResult × Nat :=
  let extractRes : TickResult :=
    match env.extractError with
    | some e => .done (.error (.scriptExecution e))
    | none =>
        .done (.ok (cleanResult (serializeJS (extractTarget env opts.selector))))
  match opts.script with
  | some c =>
      match env.scriptError c with
      | some e => (.done (.error (.scriptExecution e)), 1)
      | none => (extractRes, 1)
  | none => (extractRes, 0)

/-- One `MainEventsCleared` tick at time `t`.  Phase 4: while not
`loaded`, poll the readiness flag; the tick that sees it `"true"` records
`loaded` and returns (the source `return`s after setting the flag).
Phase 5: with `waitFor` set, poll the selector and keep waiting while
absent.  The timeout comparison (`timeoutMs ≤ t`, elapsed measured from
session start) is modelled from the spec and applies while a wait
condition is unmet.  Once past the waits, Phases 6-7 run within the same
tick. -/
def tick (env : PageEnv) (opts : RenderOptions) (timeoutMs : Nat)
    (loaded : Bool) (t : Nat) : TickResult × Nat :=
  if loaded = false then
    if env.readyAt ≤ t then (.again true, 0)
    else if timeoutMs ≤ t then (.done (.error .timeout), 0)
    else (.again false, 0)
  else
    match opts.waitFor with
    | some w =>
        if env.hasSelector w t then phases67 env opts
        else if timeoutMs ≤ t then (.done (.error .timeout), 0)
        else (.again true, 0)
    | none => phases67 env opts

/-- Drive the event loop from tick `t` with the given `loaded` flag for at
most `fuel` ticks.  Returns the terminal result paired with the tick at
which the loop exited (or `none` if the fuel ran out first), together
with the total number of custom-script evaluations performed. -/
def runFrom (env : PageEnv) (opts : RenderOptions) (timeoutMs : Nat) :
    Nat → Bool → Nat → Option (Except RenderError String × Nat) × Nat
  | 0, _, _ => (none, 0)
  | fuel + 1, loaded, t =>
      match tick env opts timeoutMs loaded t with
      | (.again l, k) =>
          let (r, n) := runFrom env opts timeoutMs fuel l (t + 1)
          (r, k + n)
      | (.done r, k) => (some (r, t), k)

/-- Modelled from the spec: the state machine's effective timeout defaults
to 5000 ms when the option is absent (the Rust default-application line is
not among the quoted sources). -/
def effTimeout (opts : RenderOptions) : Nat := opts.timeout.getD 5000

/-- Run one render session from its start (tick 0, not yet loaded). -/
def runMachine (env : PageEnv) (opts : RenderOptions) (fuel : Nat) :
    Option (Except RenderError String × Nat) × Nat :=
  runFrom env opts (effTimeout opts) fuel false 0

/-- The N-API error message for `RenderError::Timeout`, from the quoted
`impl From<RenderError> for napi::Error`:
`"RenderTimeoutError: Rendering timed out"`. -/
def napiTimeoutMsg : String := "RenderTimeoutError: Rendering timed out"

/-! ## Concrete demonstration environments -/

/-- A page that fires its load event at tick 3 and never contains the
awaited selector. -/
def demoSlowLoadEnv : PageEnv :=
  { readyAt := 3
    hasSelector := fun _ _ => false
    scriptError := fun _ => none
    extractError := none
    querySelector := fun _ => none
    documentHTML := "<html><body></body></html>" }

/-- A page that loads at tick 1, contains every awaited selector, runs
scripts without error, and has no match for any extraction selector. -/
def demoMissEnv : PageEnv :=
  { readyAt := 1
    hasSelector := fun _ _ => true
    scriptError := fun _ => none
    extractError := none
    querySelector := fun _ => none
    documentHTML := "<html><body><p>hi</p></body></html>" }

/-- A page that loads at tick 0 and whose custom-script evaluation fails
with the message of a thrown exception. -/
def demoBoomEnv : PageEnv :=
  { readyAt := 0
    hasSelector := fun _ _ => true
    scriptError := fun _ => some "Error: boom"
    extractError := none
    querySelector := fun _ => none
    documentHTML := "<html><body></body></html>" }

/-- The invariant that makes the dispatcher promise single-settlement:
before resolution nothing has settled, after it exactly one settlement
has happened. -/
def settledInv (s : DispatchState) : Prop :=
  (s.resolvedFlag = false ∧ s.settles.length = 0) ∨
    (s.resolvedFlag = true ∧ s.settles.length = 1)

end FetchWithRender

namespace FetchWithRender

/-! ## Theorems -/

theorem dispatchStep_inv (t : Nat) (s : DispatchState) (e : ChildEvent)
    (h : settledInv s) : settledInv (dispatchStep t s e) := by
  rcases h with ⟨h1, h2⟩ | ⟨h1, h2⟩ <;>
    rcases e with (_ | html | err) | err | code | _ <;>
    simp [dispatchStep, settledInv, h1, h2] <;>
    (try split) <;> (try simp_all [settledInv])

theorem dispatchFold_inv (t : Nat) (es : List ChildEvent) :
    ∀ s : DispatchState, settledInv s →
      settledInv (es.foldl (dispatchStep t) s) := by
  induction es with
  | nil => intro s h; exact h
  | cons e es ih =>
      intro s h
      exact ih _ (dispatchStep_inv t s e h)

/-- C1: the dispatcher settles its promise exactly once.  The kill timer
is scheduled unconditionally and its callback fires whenever the flag was
not yet set, so every complete trace of one `#renderInChildProcess`
invocation is a list of child events followed by the (possibly inert)
kill-timer firing; over any such trace the number of settlements is
exactly one — regardless of how many result, error or exit events the
child produced.  (The first-call path returns the single value of the
native render directly, so only the worker path can multi-settle.) -/
theorem dispatcher_settles_exactly_once (t : Nat) (es : List ChildEvent) :
    ((dispatchRun t (es ++ [.killTimeoutFired])).settles).length = 1 := by
  have hinv : settledInv (es.foldl (dispatchStep t) initDispatch) :=
    dispatchFold_inv t es initDispatch (Or.inl ⟨rfl, rfl⟩)
  have hrun : dispatchRun t (es ++ [.killTimeoutFired])
      = dispatchStep t (es.foldl (dispatchStep t) initDispatch) .killTimeoutFired := by
    simp [dispatchRun, List.foldl_append]
  rw [hrun]
  rcases hinv with ⟨h1, h2⟩ | ⟨h1, h2⟩ <;> simp [dispatchStep, h1, h2]

theorem renderCountAfter_eq (n : Nat) : renderCountAfter n = n := by
  induction n with
  | zero => rfl
  | succ n ih => simp [renderCountAfter, renderStep, ih]

/-- C2: within one process lifetime the first `render()` call takes the
direct in-process native path and every later call takes the
child-process worker path.  The decision reads the module-level
`renderCount`, which is shared by all `RenderableResponse` instances, so
the call index alone determines the path. -/
theorem first_call_direct_rest_worker :
    pathOfCall 0 = .direct ∧ ∀ n, 0 < n → pathOfCall n = .worker := by
  refine ⟨rfl, fun n hn => ?_⟩
  have hne : n + 1 ≠ 1 := by omega
  simp [pathOfCall, renderCountAfter_eq, renderStep, hne]

theorem first_call_direct_rest_worker_witness :
    0 < 2 ∧ pathOfCall 2 = .worker :=
  ⟨by decide, first_call_direct_rest_worker.2 2 (by decide)⟩

/-- C6: the dispatcher arms its own timer at the render timeout plus the
fixed grace margin of 2000 ms (strictly positive); when the timer fires
while the promise is unsettled it kills the worker and rejects with the
render-timeout message — which is distinct from both worker-exit
messages, so the caller sees a timeout, not a kill or process error. -/
theorem kill_timer_grace_and_timeout_rejection :
    (∀ opts, killDelay opts = jsTimeout opts + graceMs) ∧ 0 < graceMs ∧
    (∀ t s, s.resolvedFlag = false →
      dispatchStep t s .killTimeoutFired =
        { s with resolvedFlag := true, killed := true,
                 settles := s.settles ++ [.rejected (renderTimeoutMsg t)] }) ∧
    renderTimeoutMsg 5000 ≠ workerExitCodeMsg (some 1) ∧
    renderTimeoutMsg 5000 ≠ workerSilentExitMsg := by
  refine ⟨fun _ => rfl, by decide, fun t s h => ?_, by decide, by decide⟩
  simp [dispatchStep, h]

theorem kill_timer_grace_and_timeout_rejection_witness :
    initDispatch.resolvedFlag = false ∧
    dispatchStep 5000 initDispatch .killTimeoutFired =
      { initDispatch with resolvedFlag := true, killed := true,
                          settles := [.rejected (renderTimeoutMsg 5000)] } :=
  ⟨rfl, kill_timer_grace_and_timeout_rejection.2.2.1 5000 initDispatch rfl⟩

/-- C7 counterexample: on the dispatcher-detected timeout path the
surfaced message is `"Render timeout after 5000ms"`, and a caller-side
case-sensitive substring check for `"Timeout"` does not match it, so the
claimed classification fails on that failure path. -/
theorem timeout_tag_missing_on_dispatcher_path :
    (dispatchRun 5000 [.killTimeoutFired]).settles
        = [.rejected (renderTimeoutMsg 5000)] ∧
    ¬ ("Timeout".data <:+: (renderTimeoutMsg 5000).data) := by
  exact ⟨by decide, by decide⟩

/-- C7 amended: the native error path embeds the kind tag (the N-API
timeout message contains `"Timeout"`), and the dispatcher timeout message
always contains `"timeout"` in lowercase; but a case-sensitive check for
`"Timeout"` misses the dispatcher path, and the worker-exit messages
carry no `"ProcessFailure"` tag at all. -/
theorem error_kind_tagging_amended :
    ("Timeout".data <:+: napiTimeoutMsg.data) ∧
    (∀ t, "timeout".data <:+: (renderTimeoutMsg t).data) ∧
    ¬ ("Timeout".data <:+: (renderTimeoutMsg 5000).data) ∧
    ¬ ("ProcessFailure".data <:+: workerSilentExitMsg.data) := by
  refine ⟨by decide, fun t => ?_, by decide, by decide⟩
  have h1 : "timeout".data <:+: "Render timeout after ".data := by decide
  have h2 : "Render timeout after ".data <+: (renderTimeoutMsg t).data := by
    have : (renderTimeoutMsg t).data
        = "Render timeout after ".data ++ ((toString t).data ++ "ms".data) := by
      simp [renderTimeoutMsg, String.data_append]
    rw [this]
    exact List.prefix_append _ _
  exact h1.trans h2.isInfix

/-- C8 counterexample: a worker that exits with code 3 without having
sent a result causes a rejection with message
`"Worker process exited with code 3"`, not the claimed
`"worker exited with code 3"`; the silent-exit message likewise starts
with a capital letter. -/
theorem worker_exit_message_counterexample :
    (dispatchRun 7777 [.exited (some 3)]).settles
        = [.rejected "Worker process exited with code 3"] ∧
    "Worker process exited with code 3" ≠ "worker exited with code 3" ∧
    workerSilentExitMsg ≠ "worker exited without sending result" := by
  exact ⟨by decide, by decide, by decide⟩

/-- C8 amended: when the worker exits before any result message, the
caller receives a rejection whose message is
`"Worker process exited with code N"` for a non-zero (or `null`) exit
code and `"Worker exited without sending result"` for exit code 0. -/
theorem worker_exit_messages (t : Nat) (s : DispatchState) (code : Option Int)
    (h : s.resolvedFlag = false) :
    (code ≠ some 0 →
      (dispatchStep t s (.exited code)).settles
        = s.settles ++ [.rejected (workerExitCodeMsg code)]) ∧
    (code = some 0 →
      (dispatchStep t s (.exited code)).settles
        = s.settles ++ [.rejected workerSilentExitMsg]) := by
  constructor
  · intro hc; simp [dispatchStep, h, hc]
  · intro hc; simp [dispatchStep, h, hc]

theorem worker_exit_messages_witness :
    initDispatch.resolvedFlag = false ∧ (some 3 : Option Int) ≠ some 0 ∧
    (dispatchStep 5000 initDispatch (.exited (some 3))).settles
      = [.rejected (workerExitCodeMsg (some 3))] :=
  ⟨rfl, by decide,
    (worker_exit_messages 5000 initDispatch (some 3) rfl).1 (by decide)⟩

/-- C9: the worker signals readiness at startup, emits exactly one
outcome message per received request, exits with status 0 exactly when
that message is a success and non-zero exactly when it is a failure, and
the uncaught-fault handler still sends a failure message and exits
non-zero. -/
theorem worker_process_contract
    (renderPage : String → RenderOptions → Except String String)
    (req : WorkerRequest) :
    (handleRequest renderPage req).1.length = 1 ∧
    ((handleRequest renderPage req).2 = 0 ↔
      ∃ h, (handleRequest renderPage req).1 = [.result h]) ∧
    ((handleRequest renderPage req).2 ≠ 0 ↔
      ∃ e, (handleRequest renderPage req).1 = [.failure e]) ∧
    workerStartupMsgs = [.ready] ∧
    (∀ e, (handleUncaught e).1
        = [.failure ("Uncaught exception: " ++ e)] ∧ (handleUncaught e).2 ≠ 0) := by
  cases hr : renderPage req.url (req.options.getD {}) <;>
    simp [handleRequest, hr, handleUncaught, workerStartupMsgs]

theorem runFrom_selector_never_timeout (env : PageEnv) (opts : RenderOptions)
    (T : Nat) (sel : String)
    (hw : opts.waitFor = some sel)
    (hnever : ∀ u, env.hasSelector sel u = false) :
    ∀ fuel loaded t, T + 2 ≤ t + fuel →
      (loaded = false → t ≤ T) → (loaded = true → t ≤ T + 1) →
      ∃ t', t' ≤ T + 1 ∧
        runFrom env opts T fuel loaded t = (some (.error .timeout, t'), 0) := by
  intro fuel
  induction fuel with
  | zero =>
      intro loaded t h hf ht
      cases loaded with
      | false => have := hf rfl; omega
      | true => have := ht rfl; omega
  | succ fuel ih =>
      intro loaded t h hf ht
      cases loaded with
      | false =>
          have htT : t ≤ T := hf rfl
          by_cases hr : env.readyAt ≤ t
          · obtain ⟨t', ht', heq⟩ :=
              ih true (t + 1) (by omega) (by simp) (fun _ => by omega)
            exact ⟨t', ht', by simp [runFrom, tick, hr, heq]⟩
          · by_cases hto : T ≤ t
            · exact ⟨t, by omega, by simp [runFrom, tick, hr, hto]⟩
            · obtain ⟨t', ht', heq⟩ :=
                ih false (t + 1) (by omega) (fun _ => by omega) (by simp)
              exact ⟨t', ht', by simp [runFrom, tick, hr, hto, heq]⟩
      | true =>
          have htT : t ≤ T + 1 := ht rfl
          by_cases hto : T ≤ t
          · exact ⟨t, by omega, by simp [runFrom, tick, hw, hnever, hto]⟩
          · obtain ⟨t', ht', heq⟩ :=
              ih true (t + 1) (by omega) (by simp) (fun _ => by omega)
            exact ⟨t', ht', by simp [runFrom, tick, hw, hnever, hto, heq]⟩

/-- C3: with `waitForSelector` set to a selector that never appears, the
state machine terminates with `Failure(Timeout)` no later than one tick
past the timeout — it cannot hang; and because the clock is the elapsed
time from session start, a page that loads at tick 3 with a 10 ms timeout
still times out at tick 10 (the selector wait does not get its own full
timeout window). -/
theorem selector_never_appears_times_out :
    (∀ env opts sel, opts.waitFor = some sel →
      (∀ u, env.hasSelector sel u = false) →
      ∃ t', t' ≤ effTimeout opts + 1 ∧
        runMachine env opts (effTimeout opts + 2)
          = (some (.error .timeout, t'), 0)) ∧
    (runMachine demoSlowLoadEnv
        { timeout := some 10, waitFor := some "#never" } 12).1
      = some (.error .timeout, 10) := by
  constructor
  · intro env opts sel hw hnever
    have h := runFrom_selector_never_timeout env opts (effTimeout opts) sel hw
      hnever (effTimeout opts + 2) false 0 (by omega) (fun _ => by omega) (by simp)
    simpa [runMachine] using h
  · decide

theorem selector_never_appears_times_out_witness :
    ({ timeout := some 10, waitFor := some "#never" } : RenderOptions).waitFor
        = some "#never" ∧
    (∀ u, demoSlowLoadEnv.hasSelector "#never" u = false) ∧
    ∃ t', t' ≤ effTimeout { timeout := some 10, waitFor := some "#never" } + 1 ∧
      runMachine demoSlowLoadEnv { timeout := some 10, waitFor := some "#never" }
          (effTimeout { timeout := some 10, waitFor := some "#never" } + 2)
        = (some (.error .timeout, t'), 0) :=
  ⟨rfl, fun _ => rfl,
    selector_never_appears_times_out.1 demoSlowLoadEnv
      { timeout := some 10, waitFor := some "#never" } "#never" rfl (fun _ => rfl)⟩

theorem runFrom_load_phase (env : PageEnv) (opts : RenderOptions) (T : Nat)
    (hT : env.readyAt ≤ T) :
    ∀ k t fuel, t + k = env.readyAt →
      runFrom env opts T (k + 1 + fuel) false t
        = runFrom env opts T fuel true (t + k + 1) := by
  intro k
  induction k with
  | zero =>
      intro t fuel ht
      have hr : env.readyAt ≤ t := by omega
      have harr : 0 + 1 + fuel = fuel + 1 := by omega
      rw [harr]
      cases h : runFrom env opts T fuel true (t + 1) with
      | mk r n => simp [runFrom, tick, hr, h]
  | succ k ih =>
      intro t fuel ht
      have h2 : ¬ env.readyAt ≤ t := by omega
      have h3 : ¬ T ≤ t := by omega
      have harr : k + 1 + 1 + fuel = (k + 1 + fuel) + 1 := by omega
      have hrec := ih (t + 1) fuel (by omega)
      have harg : t + 1 + k + 1 = t + (k + 1) + 1 := by omega
      rw [harg] at hrec
      rw [harr]
      cases h : runFrom env opts T fuel true (t + (k + 1) + 1) with
      | mk r n =>
          rw [h] at hrec
          simp [runFrom, tick, h2, h3, hrec, h]

/-- C4: when the page loads within the timeout, the optional selector
wait and custom script succeed, and `extractSelector` matches no element,
the outcome is `Success("")` — the extraction script returns `''`, the
bridge serializes it as `""`, and the cleanup strips the quotes — not a
failure of any kind. -/
theorem extract_selector_miss_empty_success (env : PageEnv)
    (opts : RenderOptions) (sel : String)
    (hsel : opts.selector = some sel)
    (hmiss : env.querySelector sel = none)
    (hext : env.extractError = none)
    (hload : env.readyAt ≤ effTimeout opts)
    (hwait : ∀ w, opts.waitFor = some w →
      env.hasSelector w (env.readyAt + 1) = true)
    (hscript : ∀ c, opts.script = some c → env.scriptError c = none) :
    (runMachine env opts (env.readyAt + 2)).1
      = some (.ok "", env.readyAt + 1) := by
  have hclean : cleanResult (serializeJS "") = "" := by decide
  have hphase := runFrom_load_phase env opts (effTimeout opts) hload
    env.readyAt 0 1 (by omega)
  have harr : env.readyAt + 2 = env.readyAt + 1 + 1 := by omega
  rw [runMachine, harr]
  rw [show (0 : Nat) + env.readyAt + 1 = env.readyAt + 1 by omega] at hphase
  rw [hphase]
  cases hwf : opts.waitFor with
  | none =>
      cases hs : opts.script with
      | none =>
          simp [runFrom, tick, hwf, phases67, hs, hext, extractTarget,
            hsel, hmiss, hclean]
      | some c =>
          have := hscript c hs
          simp [runFrom, tick, hwf, phases67, hs, this, hext, extractTarget,
            hsel, hmiss, hclean]
  | some w =>
      have hw := hwait w hwf
      cases hs : opts.script with
      | none =>
          simp [runFrom, tick, hwf, hw, phases67, hs, hext, extractTarget,
            hsel, hmiss, hclean]
      | some c =>
          have := hscript c hs
          simp [runFrom, tick, hwf, hw, phases67, hs, this, hext,
            extractTarget, hsel, hmiss, hclean]

theorem extract_selector_miss_empty_success_witness :
    ({ timeout := some 5, waitFor := some ".main", selector := some "#x",
       script := some "document.title" } : RenderOptions).selector = some "#x" ∧
    demoMissEnv.querySelector "#x" = none ∧
    (runMachine demoMissEnv
        { timeout := some 5, waitFor := some ".main", selector := some "#x",
          script := some "document.title" } (demoMissEnv.readyAt + 2)).1
      = some (.ok "", demoMissEnv.readyAt + 1) :=
  ⟨rfl, rfl,
    extract_selector_miss_empty_success demoMissEnv
      { timeout := some 5, waitFor := some ".main", selector := some "#x",
        script := some "document.title" } "#x" rfl rfl rfl (by decide)
      (fun _ h => by cases h; rfl) (fun _ _ => rfl)⟩

/-- C5: a custom script is evaluated exactly once, at the tick after load
and selector wait complete; when its evaluation errors, the outcome is
`Failure(ScriptExecution(m))` with the underlying message `m` preserved
verbatim (hence containing any substring of it, e.g. `"boom"`), and when
it succeeds the evaluation count is still exactly one. -/
theorem custom_script_once_and_error_propagation (env : PageEnv)
    (opts : RenderOptions) (c : String)
    (hscript : opts.script = some c)
    (hload : env.readyAt ≤ effTimeout opts)
    (hwait : ∀ w, opts.waitFor = some w →
      env.hasSelector w (env.readyAt + 1) = true) :
    (∀ m, env.scriptError c = some m →
      runMachine env opts (env.readyAt + 2)
        = (some (.error (.scriptExecution m), env.readyAt + 1), 1)) ∧
    (env.scriptError c = none →
      (runMachine env opts (env.readyAt + 2)).2 = 1) := by
  have hphase := runFrom_load_phase env opts (effTimeout opts) hload
    env.readyAt 0 1 (by omega)
  have harr : env.readyAt + 2 = env.readyAt + 1 + 1 := by omega
  rw [show (0 : Nat) + env.readyAt + 1 = env.readyAt + 1 by omega] at hphase
  constructor
  · intro m hm
    rw [runMachine, harr, hphase]
    cases hwf : opts.waitFor with
    | none => simp [runFrom, tick, hwf, phases67, hscript, hm]
    | some w =>
        have hw := hwait w hwf
        simp [runFrom, tick, hwf, hw, phases67, hscript, hm]
  · intro hm
    rw [runMachine, harr, hphase]
    cases hwf : opts.waitFor with
    | none =>
        cases hx : env.extractError with
        | none => simp [runFrom, tick, hwf, phases67, hscript, hm, hx]
        | some e => simp [runFrom, tick, hwf, phases67, hscript, hm, hx]
    | some w =>
        have hw := hwait w hwf
        cases hx : env.extractError with
        | none => simp [runFrom, tick, hwf, hw, phases67, hscript, hm, hx]
        | some e => simp [runFrom, tick, hwf, hw, phases67, hscript, hm, hx]

theorem custom_script_once_and_error_propagation_witness :
    ({ timeout := some 5, script := some "(() => { throw new Error() })()" }
        : RenderOptions).script = some "(() => { throw new Error() })()" ∧
    demoBoomEnv.scriptError "(() => { throw new Error() })()"
        = some "Error: boom" ∧
    ("boom".data <:+: "Error: boom".data) ∧
    runMachine demoBoomEnv
        { timeout := some 5, script := some "(() => { throw new Error() })()" }
        (demoBoomEnv.readyAt + 2)
      = (some (.error (.scriptExecution "Error: boom"), demoBoomEnv.readyAt + 1), 1) :=
  ⟨rfl, rfl, by decide,
    (custom_script_once_and_error_propagation demoBoomEnv
        { timeout := some 5, script := some "(() => { throw new Error() })()" }
        "(() => { throw new Error() })()" rfl (by decide)
        (fun _ _ => rfl)).1 "Error: boom" rfl⟩

theorem dropWhile_quote_replicate (n : Nat) (l : List Char) :
    (List.replicate n '"' ++ l).dropWhile (· = '"') = l.dropWhile (· = '"') := by
  induction n with
  | zero => simp
  | succ n ih => simp [List.replicate_succ, List.dropWhile_cons, ih]

theorem dropWhile_quote_of_head_ne (l : List Char) (h : l.head? ≠ some '"') :
    l.dropWhile (· = '"') = l := by
  cases l with
  | nil => rfl
  | cons c t =>
      have hc : ¬ (c = '"') := fun hc => h (by simp [hc])
      simp [List.dropWhile_cons, hc]

theorem trimQuotes_strips_all (i j : Nat) (l : List Char)
    (h1 : l.head? ≠ some '"') (h2 : l.getLast? ≠ some '"') :
    trimQuotes (List.replicate i '"' ++ l ++ List.replicate j '"') = l := by
  unfold trimQuotes
  rw [List.append_assoc, dropWhile_quote_replicate]
  cases l with
  | nil =>
      rw [List.nil_append,
        show (List.replicate j '"' : List Char) = List.replicate j '"' ++ [] by simp,
        dropWhile_quote_replicate]
      simp
  | cons c t =>
      have hc : (c :: t ++ List.replicate j '"' : List Char).head? ≠ some '"' := by
        have : ¬ (c = '"') := fun hc => h1 (by simp [hc])
        simp [this]
      rw [dropWhile_quote_of_head_ne _ hc, List.reverse_append,
        List.reverse_replicate, dropWhile_quote_replicate,
        dropWhile_quote_of_head_ne _ (by rw [List.head?_reverse]; exact h2),
        List.reverse_reverse]

/-- C10: the Phase-7 cleanup strips every leading and every trailing
double quote (not just one wrapping pair) and decodes only the `\n` and
`\"` escape sequences; other escapes such as `\t` and `\\` pass through
undecoded, and extracted HTML whose serialization begins or ends with
literal quote characters loses them (`cleanResult ∘ serializeJS` is not
the identity on a string that starts and ends with `"`). -/
theorem cleanup_strips_quotes_and_unescapes_two :
    (∀ i j (l : List Char), l.head? ≠ some '"' → l.getLast? ≠ some '"' →
      trimQuotes (List.replicate i '"' ++ l ++ List.replicate j '"') = l) ∧
    cleanResult "\"a\\tb\\\\c\"" = "a\\tb\\\\c" ∧
    cleanResult "\"x\\ny\\\"z\"" = "x\ny\"z" ∧
    cleanResult "\"\"inner\"\"" = "inner" ∧
    cleanResult (serializeJS "\"x\"") = "\"x\\" ∧
    cleanResult (serializeJS "\"x\"") ≠ "\"x\"" := by
  exact ⟨trimQuotes_strips_all, by decide, by decide, by decide, by decide, by decide⟩

theorem cleanup_strips_quotes_and_unescapes_two_witness :
    (['h', 'i'] : List Char).head? ≠ some '"' ∧
    (['h', 'i'] : List Char).getLast? ≠ some '"' ∧
    trimQuotes (List.replicate 2 '"' ++ ['h', 'i'] ++ List.replicate 3 '"')
      = ['h', 'i'] :=
  ⟨by decide, by decide,
    cleanup_strips_quotes_and_unescapes_two.1 2 3 ['h', 'i'] (by decide) (by decide)⟩

end FetchWithRender
